import Mathlib

/-
  Verification of the dose-accumulation and forward-projection core of
  `Rectal_Air_Intervention_Check.py` (class `Model`, lines 41-146).

  Modelling conventions:
  * Dose values are exact rationals (the Python code uses numpy floats; every
    claim under study is about the algebraic structure of the computation, so
    the arithmetic is embedded exactly).
  * A dose grid is a flattened list of per-voxel doses.  All grids produced by
    the planning system share a single shape, and every element-wise operation
    in the source acts on grids of that shared shape; theorems about the main
    path therefore carry the uniform-length hypothesis explicitly.  The shape
    semantics of numpy in-place addition (including silent broadcasting of a
    size-1 axis) is modelled separately on 3-dimensional grids, for the claims
    about shape mismatches.
  * Fallible steps (numpy fancy indexing out of range, boolean-mask length
    mismatch, fraction-list lookup out of range) are modelled in the Option
    monad: `none` is an uncaught runtime error.
  * The source pops a modal dialog and calls `exit()` on the two intervention
    branches; those branches are modelled as returning the corresponding
    `Decision` value, the user-visible outcome.
-/

namespace RectalAir

/-- Sequencing of a fallible step over a list: the Python `for` loop body that
raises on the first failing element.  `none` models the uncaught exception. -/
def traverseOpt (f : α → Option β) : List α → Option (List β)
  | [] => some []
  | a :: as =>
    match f a, traverseOpt f as with
    | some b, some bs => some (b :: bs)
    | _, _ => none

/-- A flattened dose grid (`DoseData` flattened to one voxel axis). -/
abbrev Grid := List ℚ

/-- `np.zeros([z, y, x])`, flattened: line 97. -/
def zeroGrid (n : ℕ) : Grid := List.replicate n (0 : ℚ)

/-- Element-wise sum of two grids of the shared dose-grid shape
(`delivered_dose += ...`, line 101). -/
def addGrid (a b : Grid) : Grid := List.zipWith (· + ·) a b

/-- Element-wise difference of two grids. -/
def subGrid (a b : Grid) : Grid := List.zipWith (· - ·) a b

/-- Scalar multiple of a grid (`y * mean_dose`, `x * air_dose`,
`mean_dose * total_fractions`: lines 106 and 137). -/
def smulGrid (c : ℚ) (g : Grid) : Grid := g.map (fun q => c * q)

/-- Division of a grid by a scalar (`delivered_dose / delivered_fractions`,
line 105). -/
def divGrid (g : Grid) (k : ℚ) : Grid := g.map (fun q => q / k)

/-- numpy boolean-mask indexing `relative_volumes[mask]` (lines 112 and 140):
keeps the entries of `w` whose mask bit is set; raises (here `none`) when the
mask length differs from the array length. -/
def maskSelect (w : List ℚ) (mask : List Bool) : Option (List ℚ) :=
  if mask.length = w.length then
    some (((w.zip mask).filter Prod.snd).map Prod.fst)
  else
    none

/-- The two clinical dose-volume metrics of lines 109-113 (and 138-141):
`roi_doses = dose_grid.flatten()[voxel_indices]`,
`v_pct  = np.sum(relative_volumes[roi_doses >= t6000]) * 100`,
`v_cc   = np.sum(roi_doses >= t6200) * voxel_volume_cc`.
Out-of-range fancy indexing and a mask-length mismatch are runtime errors,
modelled as `none`. -/
def computeMetrics (grid : Grid) (voxelIndices : List ℕ) (relativeVolumes : List ℚ)
    (voxelVolume t6000 t6200 : ℚ) : Option (ℚ × ℚ) :=
  match traverseOpt (fun i => grid[i]?) voxelIndices with
  | none => none
  | some roiDoses =>
    match maskSelect relativeVolumes (roiDoses.map (fun d => decide (t6000 ≤ d))) with
    | none => none
    | some sel =>
      some (sel.sum * 100,
            ((roiDoses.filter (fun d => decide (t6200 ≤ d))).length : ℚ) * voxelVolume)

/-- One treatment fraction of
`case.TreatmentDelivery.TreatmentCourse.TreatmentFractions`: its delivery
status (`Status == 'Delivered'`) and its dose grid
(`EstimatedFractionDoseOnTotalDoseExamination.DoseValues.DoseData`). -/
structure Fraction where
  delivered : Bool
  doseData : Grid

/-- A frozen snapshot of the planning-system state read by `Model`. -/
structure Snapshot where
  /-- `len(plan.TreatmentCourse.TreatmentFractions)`, line 47. -/
  planFractionCount : ℕ
  /-- The treatment-delivery fraction list (lines 49, 83, 100-102, 129). -/
  fractions : List Fraction
  /-- `dose_grid.RoiVolumeDistribution.VoxelIndices`, line 79. -/
  voxelIndices : List ℕ
  /-- `dose_grid.RoiVolumeDistribution.RelativeVolumes`, line 80. -/
  relativeVolumes : List ℚ
  /-- Flattened voxel count `NrVoxels.z * NrVoxels.y * NrVoxels.x`, lines 83-84. -/
  gridVoxels : ℕ
  /-- `VoxelSize.x * VoxelSize.y * VoxelSize.z`, lines 87-94. -/
  voxelVolume : ℚ

/-- The provider's raw delivered-fraction count, lines 48-50:
`sum(1 for f in ... if f.Status == 'Delivered')`. -/
def countDelivered (s : Snapshot) : ℕ :=
  List.countP (fun f => f.delivered) s.fractions

/-- `Model.get_fraction_info` (lines 41-53), counts only: total planned
fractions and the quirk-adjusted delivered count `delivered_fractions - 1`
(line 53; the patient-name string of lines 43-44 is presentation data).  The
subtraction is over ℤ, as in Python. -/
def get_fraction_info (s : Snapshot) : ℕ × ℤ :=
  (s.planFractionCount, (countDelivered s : ℤ) - 1)

/-- Element-wise sum of the delivered fractions' dose grids starting from the
zero grid of the planning dose-grid shape (lines 97-102), for grids of the
shared shape. -/
def accumulateSum (gridVoxels : ℕ) (grids : List Grid) : Grid :=
  grids.foldl addGrid (zeroGrid gridVoxels)

/-- Fetch the dose grids of fractions `0 .. delivered-1`
(`TreatmentFractions[i]...DoseData` for `i in range(delivered_fractions)`,
lines 100-102); an index past the end of the fraction list is a runtime
error. -/
def deliveredGrids (s : Snapshot) (delivered : ℕ) : Option (List Grid) :=
  traverseOpt (fun i => (s.fractions[i]?).map (fun f => f.doseData))
    (List.range delivered)

/-- The air fraction's dose grid lookup of lines 129-130:
`TreatmentFractions[delivered_fractions]...DoseData`. -/
def airDose (s : Snapshot) (delivered : ℕ) : Option Grid :=
  (s.fractions[delivered]?).map (fun f => f.doseData)

/-- The hypothetical cumulative dose after substituting `x` of the remaining
fractions by the air fraction (lines 136-137):
`y = total_fractions - x; future_total_dose = y * mean_dose + x * air_dose`,
with `y` computed over ℤ as in Python. -/
def futureTotalDose (total : ℕ) (mean air : Grid) (x : ℕ) : Grid :=
  addGrid (smulGrid (((total : ℤ) - (x : ℤ) : ℤ) : ℚ) mean)
    (smulGrid (x : ℚ) air)

/-- The forward-projection loop of lines 132-144: for `x` in
`1 .. remaining_fractions` evaluate the two metrics on the hypothetical
cumulative dose; the pair appended to `(CG_v6000, CG_v6200)` at step `x`
becomes entry `x - 1` of the curve. -/
def project (total delivered : ℕ) (mean air : Grid) (voxelIndices : List ℕ)
    (relativeVolumes : List ℚ) (voxelVolume t6000 t6200 : ℚ) :
    Option (List (ℚ × ℚ)) :=
  traverseOpt
    (fun x => computeMetrics (futureTotalDose total mean air x)
      voxelIndices relativeVolumes voxelVolume t6000 t6200)
    (List.range' 1 (total - delivered))

/-- The user-visible outcome of a run of `Model.evaluate_rectal_air`. -/
inductive Decision where
  | Proceed
  | InterveneInsufficientData
  | InterveneGoalExceeded
deriving DecidableEq

/-- Decision, current metrics (when computed) and prediction curve. -/
structure EvalResult where
  decision : Decision
  currentMetrics : Option (ℚ × ℚ)
  curve : List (ℚ × ℚ)
deriving DecidableEq

/-- `Model.evaluate_rectal_air` (lines 55-146) on a snapshot, taking
`total_fractions` and `delivered_fractions` as parameters exactly as the
source method does.  Branch map: the `delivered_fractions < 5` dialog-and-exit
of lines 57-66 is `InterveneInsufficientData`; the clinical-goal
dialog-and-exit of lines 116-126 is `InterveneGoalExceeded` carrying the
current metrics; the plotting path of line 146 is `Proceed` carrying the
current metrics and the projection curve.  Thresholds 6000/6200 cGy and
limits 3.0 % / 2.0 cc are the constants of lines 69-72. -/
def evaluate_rectal_air (s : Snapshot) (total : ℕ) (delivered : ℤ) :
    Option EvalResult :=
  if delivered < 5 then
    some ⟨Decision.InterveneInsufficientData, none, []⟩
  else
    match deliveredGrids s delivered.toNat with
    | none => none
    | some grids =>
      let meanDose := divGrid (accumulateSum s.gridVoxels grids) (delivered.toNat : ℚ)
      let accumulatedDose := smulGrid (total : ℚ) meanDose
      match computeMetrics accumulatedDose s.voxelIndices s.relativeVolumes
          s.voxelVolume 6000 6200 with
      | none => none
      | some cur =>
        if 3 ≤ cur.1 ∨ 2 ≤ cur.2 then
          some ⟨Decision.InterveneGoalExceeded, some cur, []⟩
        else
          match airDose s delivered.toNat with
          | none => none
          | some air =>
            match project total delivered.toNat meanDose air s.voxelIndices
                s.relativeVolumes s.voxelVolume 6000 6200 with
            | none => none
            | some curve => some ⟨Decision.Proceed, some cur, curve⟩

/-- The full evaluation as driven by the application: the counts come from
`get_fraction_info` (lines 264-276 wire them unchanged into
`run_analysis` / `evaluate_rectal_air`). -/
def evaluate (s : Snapshot) : Option EvalResult :=
  evaluate_rectal_air s (get_fraction_info s).1 (get_fraction_info s).2

/-- Two successive calls of the evaluation against one unchanged snapshot
(`Model` keeps no mutable state between calls: `evaluate_rectal_air` reads
provider data and writes only locals). -/
def evaluateTwice (s : Snapshot) : Option EvalResult × Option EvalResult :=
  (evaluate s, evaluate s)

/-
  numpy shape semantics of the accumulation loop (lines 97-102), on true
  3-dimensional grids: `delivered_dose += frac` broadcasts `frac` into the
  fixed accumulator shape, so a size-1 axis is silently stretched and only
  non-broadcastable shapes raise.
-/

/-- A 3-dimensional dose grid, indexed `[z][y][x]`. -/
abbrev Grid3 := List (List (List ℚ))

/-- The `(z, y, x)` shape of a (rectangular) 3-dimensional grid. -/
def shape3 (g : Grid3) : ℕ × ℕ × ℕ :=
  (g.length, (g.headD []).length, ((g.headD []).headD []).length)

/-- `np.zeros([z, y, x])` (line 97). -/
def zeros3 (z y x : ℕ) : Grid3 :=
  List.replicate z (List.replicate y (List.replicate x (0 : ℚ)))

/-- numpy in-place addition along one axis, innermost level: the added row
must have the target's length or length 1 (broadcast); otherwise error. -/
def broadcastRow (a b : List ℚ) : Option (List ℚ) :=
  if b.length = a.length then some (List.zipWith (· + ·) a b)
  else if b.length = 1 then some (a.map (fun q => q + b.headD 0))
  else none

/-- numpy in-place addition at the plane level (middle axis). -/
def broadcastPlane (a b : List (List ℚ)) : Option (List (List ℚ)) :=
  if b.length = a.length then
    traverseOpt (fun p => broadcastRow p.1 p.2) (a.zip b)
  else if b.length = 1 then
    traverseOpt (fun ra => broadcastRow ra (b.headD [])) a
  else none

/-- numpy in-place addition `a += b` of 3-dimensional arrays (line 101): per
axis, `b`'s extent must equal `a`'s or be 1 (broadcast); otherwise the
operation raises (`none`). -/
def npIAdd (a b : Grid3) : Option Grid3 :=
  if b.length = a.length then
    traverseOpt (fun p => broadcastPlane p.1 p.2) (a.zip b)
  else if b.length = 1 then
    traverseOpt (fun pa => broadcastPlane pa (b.headD [])) a
  else none

/-- Left fold of `npIAdd` that stops at the first shape error. -/
def accumulateNpGo : Grid3 → List Grid3 → Option Grid3
  | acc, [] => some acc
  | acc, g :: gs =>
    match npIAdd acc g with
    | none => none
    | some acc2 => accumulateNpGo acc2 gs

/-- The accumulation loop of lines 97-102 under full numpy shape semantics:
start from `np.zeros([z, y, x])` and `+=` each delivered fraction's grid. -/
def accumulateNp (z y x : ℕ) (gs : List Grid3) : Option Grid3 :=
  accumulateNpGo (zeros3 z y x) gs

/-- A rectangular 2-dimensional block of extents `(yy, xx)`. -/
abbrev IsGrid2 (yy xx : ℕ) (p : List (List ℚ)) : Prop :=
  p.length = yy ∧ ∀ r ∈ p, r.length = xx

/-- A rectangular 3-dimensional grid of extents `(zz, yy, xx)` — the shape of
a numpy dose array. -/
abbrev IsGrid3 (zz yy xx : ℕ) (g : Grid3) : Prop :=
  g.length = zz ∧ ∀ p ∈ g, IsGrid2 yy xx p


/-! General helper lemmas about the list combinators of the embedding. -/

theorem traverseOpt_length (f : α → Option β) :
    ∀ (xs : List α) (ys : List β), traverseOpt f xs = some ys → ys.length = xs.length := by
  intro xs
  induction xs with
  | nil => intro ys h; simp [traverseOpt] at h; simp [← h]
  | cons a as ih =>
    intro ys h
    cases hfa : f a with
    | none => simp [traverseOpt, hfa] at h
    | some b =>
      cases hrest : traverseOpt f as with
      | none => simp [traverseOpt, hfa, hrest] at h
      | some bs =>
        simp [traverseOpt, hfa, hrest] at h
        subst h
        simp [ih bs hrest]

theorem traverseOpt_getElem? (f : α → Option β) :
    ∀ (xs : List α) (ys : List β), traverseOpt f xs = some ys →
      ∀ (i : ℕ) (a : α), xs[i]? = some a → ys[i]? = f a := by
  intro xs
  induction xs with
  | nil => intro ys h i a ha; simp at ha
  | cons x xs ih =>
    intro ys h i a ha
    cases hfx : f x with
    | none => simp [traverseOpt, hfx] at h
    | some b =>
      cases hrest : traverseOpt f xs with
      | none => simp [traverseOpt, hfx, hrest] at h
      | some bs =>
        simp [traverseOpt, hfx, hrest] at h
        subst h
        cases i with
        | zero => simp at ha; subst ha; simp [hfx]
        | succ j => simp at ha ⊢; exact ih bs hrest j a ha

theorem getElem?_eq_getD (d : α) :
    ∀ (l : List α) (j : ℕ), j < l.length → l[j]? = some (l.getD j d) := by
  intro l
  induction l with
  | nil => intro j h; simp at h
  | cons x xs ih =>
    intro j h
    cases j with
    | zero => simp
    | succ k =>
      simp only [List.getElem?_cons_succ, List.getD_cons_succ]
      exact ih k (by simpa using h)

theorem getD_of_getElem? (d : α) :
    ∀ (l : List α) (j : ℕ) (v : α), l[j]? = some v → l.getD j d = v := by
  intro l
  induction l with
  | nil => intro j v h; simp at h
  | cons x xs ih =>
    intro j v h
    cases j with
    | zero => simp at h; simp [h]
    | succ k =>
      simp only [List.getElem?_cons_succ] at h
      simp only [List.getD_cons_succ]
      exact ih k v h

theorem zipWith_getElem?_some (f : α → β → γ) :
    ∀ (a : List α) (b : List β) (j : ℕ) (x : α) (y : β),
      a[j]? = some x → b[j]? = some y →
      (List.zipWith f a b)[j]? = some (f x y) := by
  intro a
  induction a with
  | nil => intro b j x y hx; simp at hx
  | cons a0 as ih =>
    intro b j x y hx hy
    cases b with
    | nil => simp at hy
    | cons b0 bs =>
      cases j with
      | zero => simp at hx hy; subst hx; subst hy; simp
      | succ k =>
        simp only [List.getElem?_cons_succ] at hx hy
        simp only [List.zipWith_cons_cons, List.getElem?_cons_succ]
        exact ih bs k x y hx hy

theorem range'_getElem? :
    ∀ (n s i : ℕ), i < n → (List.range' s n)[i]? = some (s + i) := by
  intro n
  induction n with
  | zero => intro s i h; omega
  | succ m ih =>
    intro s i h
    cases i with
    | zero => simp [List.range']
    | succ k =>
      have hk := ih (s + 1) k (by omega)
      simp only [List.range', List.getElem?_cons_succ, hk]
      congr 1
      omega

theorem getD_replicate_zero (n j : ℕ) : (List.replicate n (0 : ℚ)).getD j 0 = 0 := by
  induction n generalizing j with
  | zero => simp
  | succ m ih =>
    cases j with
    | zero => simp
    | succ k => simp only [List.replicate, List.getD_cons_succ]; exact ih k

/-- Evaluating the fancy indexing `dose_grid.flatten()[voxel_indices]` when
every index is in range. -/
theorem traverseOpt_index_map (grid : Grid) :
    ∀ (idx : List ℕ), (∀ i ∈ idx, i < grid.length) →
      traverseOpt (fun i => grid[i]?) idx =
        some (idx.map (fun i => grid.getD i 0)) := by
  intro idx
  induction idx with
  | nil => intro _; rfl
  | cons j js ih =>
    intro h
    have hj : grid[j]? = some (grid.getD j 0) :=
      getElem?_eq_getD 0 grid j (h j (by simp))
    have hrest := ih (fun i hi => h i (by simp [hi]))
    simp only [traverseOpt, List.map_cons]
    rw [hj, hrest]

/-- Selecting weights through a boolean mask computed from the dose list is
the same as filtering the (dose, weight) pairs on the dose predicate. -/
theorem zip_filter_swap (p : ℚ → Bool) :
    ∀ (ds w : List ℚ),
      ((w.zip (ds.map p)).filter Prod.snd).map Prod.fst =
        ((ds.zip w).filter (fun q => p q.1)).map Prod.snd := by
  intro ds
  induction ds with
  | nil => intro w; simp
  | cons d dt ih =>
    intro w
    cases w with
    | nil => simp
    | cons w0 wt =>
      have h2 := ih wt
      by_cases h : p d
      · simp only [List.zip, List.zipWith_cons_cons, List.map_cons, List.filter_cons] at h2 ⊢
        simp [h, h2]
      · simp only [List.zip, List.zipWith_cons_cons, List.map_cons, List.filter_cons] at h2 ⊢
        simp [h, h2]

theorem maskSelect_swap (p : ℚ → Bool) (ds w : List ℚ) (hw : w.length = ds.length) :
    maskSelect w (ds.map p) =
      some (((ds.zip w).filter (fun q => p q.1)).map Prod.snd) := by
  unfold maskSelect
  rw [if_pos (by simp [hw])]
  rw [zip_filter_swap]

/-- Claim C2: for every dose grid, index list and equal-length weight list
(all indices in range), `compute_metrics` returns
`v_dose_percent = 100 * Σ weights of ROI voxels with dose ≥ t6000` and
`v_volume_cc = voxel_volume * count of ROI voxels with dose ≥ t6200`
(weighted sum for the percent metric, raw count for the volume metric). -/
theorem computeMetrics_formula (grid : Grid) (idx : List ℕ) (w : List ℚ)
    (vox t6000 t6200 : ℚ) (hw : w.length = idx.length)
    (hidx : ∀ i ∈ idx, i < grid.length) :
    computeMetrics grid idx w vox t6000 t6200 =
      some (100 * ((((idx.map (fun i => grid.getD i 0)).zip w).filter
                (fun q => decide (t6000 ≤ q.1))).map Prod.snd).sum,
            vox * (((idx.map (fun i => grid.getD i 0)).filter
                (fun d => decide (t6200 ≤ d))).length : ℚ)) := by
  have h1 := traverseOpt_index_map grid idx hidx
  have h2 := maskSelect_swap (fun d => decide (t6000 ≤ d))
    (idx.map (fun i => grid.getD i 0)) w (by simp [hw])
  simp only [computeMetrics, h1, h2]
  simp [mul_comm]

/-- Claim C2 witness: the metric example of the specification, 10 ROI voxels
of relative volume 1/10 and voxel volume 1/2 cc, doses three times 7000 and
seven times 5000 cGy, thresholds 6000 and 6200, giving 30 % and 3/2 cc. -/
theorem computeMetrics_formula_witness :
    computeMetrics [7000, 7000, 7000, 5000, 5000, 5000, 5000, 5000, 5000, 5000]
        [0, 1, 2, 3, 4, 5, 6, 7, 8, 9] (List.replicate 10 (1/10 : ℚ)) (1/2) 6000 6200 =
      some (100 * (((([0, 1, 2, 3, 4, 5, 6, 7, 8, 9].map
            (fun i => ([7000, 7000, 7000, 5000, 5000, 5000, 5000, 5000, 5000, 5000] : Grid).getD i 0)).zip
              (List.replicate 10 (1/10 : ℚ))).filter
            (fun q => decide ((6000 : ℚ) ≤ q.1))).map Prod.snd).sum,
        (1/2 : ℚ) * ((([0, 1, 2, 3, 4, 5, 6, 7, 8, 9].map
            (fun i => ([7000, 7000, 7000, 5000, 5000, 5000, 5000, 5000, 5000, 5000] : Grid).getD i 0)).filter
            (fun d => decide ((6200 : ℚ) ≤ d))).length : ℚ)) ∧
    computeMetrics [7000, 7000, 7000, 5000, 5000, 5000, 5000, 5000, 5000, 5000]
        [0, 1, 2, 3, 4, 5, 6, 7, 8, 9] (List.replicate 10 (1/10 : ℚ)) (1/2) 6000 6200 =
      some (30, 3/2) := by
  constructor
  · exact computeMetrics_formula _ _ _ _ _ _ (by simp) (by decide)
  · norm_num [computeMetrics, traverseOpt, maskSelect, List.zip, List.zipWith, List.replicate]

/-- Claim C6 counterexample: with an empty ROI voxel-index list (and the
equally empty weight list of an empty ROI distribution) the computation does
not fail: it returns the metric pair (0, 0).  The source has no `MissingROI`
check. -/
theorem computeMetrics_empty_cex :
    computeMetrics [(5 : ℚ)] [] [] 1 6000 6200 ≠ none ∧
    computeMetrics [(5 : ℚ)] [] [] 1 6000 6200 = some (0, 0) := by
  have h : computeMetrics [(5 : ℚ)] [] [] 1 6000 6200 = some (0, 0) := by
    norm_num [computeMetrics, traverseOpt, maskSelect]
  exact ⟨by simp [h], h⟩

/-- Claim C6 amended: for every dose grid, voxel volume and thresholds,
`compute_metrics` on an empty ROI distribution (empty index and weight lists)
returns the metric pair (0, 0) rather than failing: the code performs no
`MissingROI` check. -/
theorem computeMetrics_empty_roi (grid : Grid) (vox t6000 t6200 : ℚ) :
    computeMetrics grid [] [] vox t6000 t6200 = some (0, 0) := by
  simp [computeMetrics, traverseOpt, maskSelect]

/-- Claim C9: the hypothetical cumulative dose at substitution count `x` is
the predicted total dose `total * mean` plus `x` times the constant grid
`air - mean`, so consecutive hypothetical grids differ by exactly
`air - mean`: the projection is affine-linear in `x`. -/
theorem future_dose_affine (total x : ℕ) (mean air : Grid) :
    futureTotalDose total mean air x =
      addGrid (smulGrid (total : ℚ) mean) (smulGrid (x : ℚ) (subGrid air mean)) ∧
    futureTotalDose total mean air (x + 1) =
      addGrid (futureTotalDose total mean air x) (subGrid air mean) := by
  constructor
  · induction mean generalizing air with
    | nil => simp [futureTotalDose, addGrid, smulGrid, subGrid]
    | cons m ms ih =>
      cases air with
      | nil => simp [futureTotalDose, addGrid, smulGrid, subGrid]
      | cons a as =>
        have ht := ih as
        simp only [futureTotalDose, addGrid, smulGrid, subGrid, List.map_cons,
          List.zipWith_cons_cons, List.cons.injEq] at ht ⊢
        refine ⟨by push_cast; ring, ht⟩
  · induction mean generalizing air with
    | nil => simp [futureTotalDose, addGrid, smulGrid, subGrid]
    | cons m ms ih =>
      cases air with
      | nil => simp [futureTotalDose, addGrid, smulGrid, subGrid]
      | cons a as =>
        have ht := ih as
        simp only [futureTotalDose, addGrid, smulGrid, subGrid, List.map_cons,
          List.zipWith_cons_cons, List.cons.injEq] at ht ⊢
        refine ⟨by push_cast; ring, ht⟩

/-- Claim C1 counterexample: with `total_fraction_count = 10`,
`delivered = 5` (so `remaining = 5`), constant `mean_dose = 500` and constant
`air_dose = 700`, the hypothetical grid at `x = remaining` is
`5*500 + 5*700 = 6000` per voxel, not `total_fraction_count * air_dose =
7000`: at `x = remaining` the loop uses `y = total - remaining = delivered`,
not `y = 0`. -/
theorem future_dose_boundary_cex :
    futureTotalDose 10 [500] [700] (10 - 5) = [6000] ∧
    smulGrid ((10 : ℕ) : ℚ) [700] = [7000] ∧
    futureTotalDose 10 [500] [700] (10 - 5) ≠ smulGrid ((10 : ℕ) : ℚ) [700] := by
  refine ⟨?_, ?_, ?_⟩ <;> norm_num [futureTotalDose, addGrid, smulGrid]

/-- Claim C1 amended: whenever the forward projection succeeds, the curve has
exactly `total - delivered` entries, ordered by ascending substitution count
`x` (entry `i` is the metric pair of `x = i + 1`), each entry being the ROI
metrics of the grid `(total - x) * mean + x * air`; at `x = remaining` the
hypothetical grid equals `delivered * mean + remaining * air` (it equals
`total * air` only when `delivered = 0`). -/
theorem project_curve_spec (total delivered : ℕ) (mean air : Grid)
    (idx : List ℕ) (w : List ℚ) (vox t6000 t6200 : ℚ) (hdt : delivered ≤ total)
    (curve : List (ℚ × ℚ))
    (hc : project total delivered mean air idx w vox t6000 t6200 = some curve) :
    curve.length = total - delivered ∧
    (∀ i : ℕ, i < total - delivered →
      curve[i]? = computeMetrics (futureTotalDose total mean air (i + 1))
        idx w vox t6000 t6200) ∧
    futureTotalDose total mean air (total - delivered) =
      addGrid (smulGrid (delivered : ℚ) mean)
        (smulGrid ((total - delivered : ℕ) : ℚ) air) := by
  refine ⟨?_, ?_, ?_⟩
  · have h := traverseOpt_length _ _ _ hc
    simpa using h
  · intro i hi
    have hr := range'_getElem? (total - delivered) 1 i hi
    have h := traverseOpt_getElem? _ _ _ hc i (1 + i) hr
    rw [h, Nat.add_comm]
  · have hcast : ((((total : ℤ) - ((total - delivered : ℕ) : ℤ)) : ℤ) : ℚ) =
        ((delivered : ℕ) : ℚ) := by
      push_cast [Nat.cast_sub hdt]
      ring
    simp only [futureTotalDose, hcast]

/-- Claim C1 witness: the projection-boundary example of the specification
(total 10, delivered 5, constant mean 500, constant air 700, one ROI voxel of
weight 1): the curve has 5 entries and the boundary grid is
`5*500 + 5*700`. -/
theorem project_curve_spec_witness :
    ([((0 : ℚ), (0 : ℚ)), (0, 0), (0, 0), (0, 0), (100, 0)] : List (ℚ × ℚ)).length = 10 - 5 ∧
    futureTotalDose 10 [500] [700] (10 - 5) =
      addGrid (smulGrid ((5 : ℕ) : ℚ) [500]) (smulGrid (((10 - 5 : ℕ)) : ℚ) [700]) := by
  have hc : project 10 5 [500] [700] [0] [1] 1 6000 6200 =
      some [((0 : ℚ), (0 : ℚ)), (0, 0), (0, 0), (0, 0), (100, 0)] := by
    norm_num [project, futureTotalDose, traverseOpt, computeMetrics, maskSelect,
      addGrid, smulGrid, List.range', List.zip, List.zipWith]
  have h := project_curve_spec 10 5 [500] [700] [0] [1] 1 6000 6200 (by norm_num)
    [((0 : ℚ), (0 : ℚ)), (0, 0), (0, 0), (0, 0), (100, 0)] hc
  exact ⟨h.1, h.2.2⟩

/-- Folding element-wise grid addition over a list of grids of the
accumulator's length sums voxel-wise. -/
theorem foldl_addGrid_getElem? :
    ∀ (grids : List Grid) (acc : Grid) (j : ℕ), j < acc.length →
      (∀ g ∈ grids, g.length = acc.length) →
      (grids.foldl addGrid acc)[j]? =
        some (acc.getD j 0 + (grids.map (fun g => g.getD j 0)).sum) := by
  intro grids
  induction grids with
  | nil =>
    intro acc j hj _
    simp only [List.foldl_nil, List.map_nil, List.sum_nil, add_zero]
    exact getElem?_eq_getD 0 acc j hj
  | cons g gs ih =>
    intro acc j hj hlen
    have hg : g.length = acc.length := hlen g (by simp)
    have hacc2 : (addGrid acc g).length = acc.length := by
      simp [addGrid, hg]
    have hgd : (addGrid acc g).getD j 0 = acc.getD j 0 + g.getD j 0 := by
      apply getD_of_getElem?
      exact zipWith_getElem?_some _ acc g j _ _
        (getElem?_eq_getD 0 acc j hj) (getElem?_eq_getD 0 g j (by omega))
    have := ih (addGrid acc g) j (by omega)
      (fun g2 hg2 => by rw [hacc2]; exact hlen g2 (by simp [hg2]))
    simp only [List.foldl_cons, this, hgd, List.map_cons, List.sum_cons]
    rw [add_assoc]

/-- Claim C5: for a non-empty list of `N` dose grids of the shared shape, the
accumulation of lines 97-105 produces, per voxel, `summed = Σ grids` and
`mean = summed / N`, with no effect on the input grids (the embedding is a
pure function of them). -/
theorem accumulate_sum_mean (n : ℕ) (grids : List Grid) (hne : grids ≠ [])
    (hg : ∀ g ∈ grids, g.length = n) (j : ℕ) (hj : j < n) :
    (accumulateSum n grids)[j]? =
      some ((grids.map (fun g => g.getD j 0)).sum) ∧
    (divGrid (accumulateSum n grids) ((grids.length : ℕ) : ℚ))[j]? =
      some ((grids.map (fun g => g.getD j 0)).sum / ((grids.length : ℕ) : ℚ)) := by
  have hz : (zeroGrid n).length = n := by simp [zeroGrid]
  have h1 : (accumulateSum n grids)[j]? =
      some ((grids.map (fun g => g.getD j 0)).sum) := by
    have h := foldl_addGrid_getElem? grids (zeroGrid n) j (by omega)
      (fun g hmem => by rw [hz]; exact hg g hmem)
    rw [accumulateSum, h, zeroGrid, getD_replicate_zero, zero_add]
  refine ⟨h1, ?_⟩
  simp only [divGrid, List.getElem?_map, h1]
  rfl

/-- Claim C5 witness: five constant grids of 1000 cGy on a one-voxel grid;
the summed dose is 5000 and the mean 5000/5 = 1000. -/
theorem accumulate_sum_mean_witness :
    (accumulateSum 1 (List.replicate 5 [1000]))[0]? =
      some (((List.replicate 5 ([1000] : Grid)).map (fun g => g.getD 0 0)).sum) ∧
    (divGrid (accumulateSum 1 (List.replicate 5 [1000]))
        (((List.replicate 5 ([1000] : Grid)).length : ℕ) : ℚ))[0]? =
      some ((((List.replicate 5 ([1000] : Grid)).map (fun g => g.getD 0 0)).sum) /
        (((List.replicate 5 ([1000] : Grid)).length : ℕ) : ℚ)) :=
  accumulate_sum_mean 1 (List.replicate 5 [1000]) (by decide) (by decide) 0 (by decide)

/-- Claim C3: whenever the quirk-adjusted delivered count
`reported_delivered_count - 1` is below 5, the evaluation returns the
insufficient-data intervention with no metrics and an empty curve, for every
snapshot (hence independently of all dose values, which are never read on
this branch). -/
theorem evaluate_insufficient_data (s : Snapshot)
    (h : (countDelivered s : ℤ) - 1 < 5) :
    evaluate s = some ⟨Decision.InterveneInsufficientData, none, []⟩ := by
  simp only [evaluate, get_fraction_info, evaluate_rectal_air]
  rw [if_pos h]

/-- Claim C3 witness: a snapshot with 5 fractions reported delivered (so the
effective count is 4) triggers the insufficient-data intervention even though
every dose is far above threshold. -/
theorem evaluate_insufficient_data_witness :
    evaluate ⟨20, List.replicate 5 ⟨true, [9999]⟩, [0], [1], 1, 1⟩ =
      some ⟨Decision.InterveneInsufficientData, none, []⟩ :=
  evaluate_insufficient_data _
    (by norm_num [countDelivered, List.countP, List.countP.go, List.replicate])

/-- Claim C4: when the sufficiency gate passes and the current metrics —
computed on `current_total = mean_dose * total_fraction_count` with
thresholds 6000 and 6200 cGy — reach either clinical limit
(`v_dose_percent ≥ 3` or `v_volume_cc ≥ 2`, limits inclusive), the
evaluation returns the goal-exceeded intervention carrying those metrics and
an empty curve: the forward projection is not performed. -/
theorem evaluate_goal_exceeded (s : Snapshot) (p v : ℚ) (grids : List Grid)
    (h5 : ¬ ((countDelivered s : ℤ) - 1 < 5))
    (hg : deliveredGrids s ((countDelivered s : ℤ) - 1).toNat = some grids)
    (hm : computeMetrics
        (smulGrid (s.planFractionCount : ℚ)
          (divGrid (accumulateSum s.gridVoxels grids)
            ((((countDelivered s : ℤ) - 1).toNat : ℕ) : ℚ)))
        s.voxelIndices s.relativeVolumes s.voxelVolume 6000 6200 = some (p, v))
    (hlim : 3 ≤ p ∨ 2 ≤ v) :
    evaluate s = some ⟨Decision.InterveneGoalExceeded, some (p, v), []⟩ := by
  simp only [evaluate, get_fraction_info, evaluate_rectal_air]
  rw [if_neg h5]
  simp only [hg, hm]
  rw [if_pos hlim]

/-- Claim C4 witness: 6 reported delivered fractions (effective 5) of
1300 cGy in the single ROI voxel; the predicted total 6 * 1300 = 7800 cGy
exceeds both thresholds, the metrics are (100 %, 1 cc) and 100 ≥ 3 triggers
the goal-exceeded intervention with an empty curve. -/
theorem evaluate_goal_exceeded_witness :
    evaluate ⟨6, List.replicate 6 ⟨true, [1300]⟩, [0], [1], 1, 1⟩ =
      some ⟨Decision.InterveneGoalExceeded, some (100, 1), []⟩ :=
  evaluate_goal_exceeded ⟨6, List.replicate 6 ⟨true, [1300]⟩, [0], [1], 1, 1⟩ 100 1
    (List.replicate 5 [1300])
    (by norm_num [countDelivered, List.countP, List.countP.go, List.replicate])
    (by norm_num [countDelivered, List.countP, List.countP.go, List.replicate,
      deliveredGrids, traverseOpt, List.range, List.range.loop, Int.toNat])
    (by norm_num [countDelivered, List.countP, List.countP.go, List.replicate,
      accumulateSum, zeroGrid, addGrid, divGrid, smulGrid, computeMetrics,
      traverseOpt, maskSelect, List.zip, List.zipWith, Int.toNat])
    (by norm_num)

/-- Claim C8: for every fixed provider snapshot, two calls of the evaluation
return identical results — Decision, current metrics and curve.  The
evaluation is a pure function of the snapshot: the source reads only provider
state and per-call locals, so no hidden counter or cache can distinguish the
two calls. -/
theorem evaluate_deterministic (s : Snapshot) :
    (evaluateTwice s).1 = (evaluateTwice s).2 := rfl

/-- Claim C10: on the Proceed path the air fraction's grid is read at 0-based
index `delivered` into the fraction list (one entry per planned fraction, so
of length `total`).  The lookup is in bounds only when `delivered < total`;
for every input with `delivered ≥ total` that reaches this step (gate passed,
accumulation and current metrics computed, both limits unmet) the lookup is
out of range and the evaluation dies there. -/
theorem air_fraction_out_of_range (s : Snapshot) (total d : ℕ) (p v : ℚ)
    (grids : List Grid)
    (hlen : s.fractions.length = total)
    (hd : total ≤ d) (h5 : ¬ ((d : ℤ) < 5))
    (hg : deliveredGrids s d = some grids)
    (hm : computeMetrics
        (smulGrid (total : ℚ)
          (divGrid (accumulateSum s.gridVoxels grids) ((d : ℕ) : ℚ)))
        s.voxelIndices s.relativeVolumes s.voxelVolume 6000 6200 = some (p, v))
    (hlim : ¬ (3 ≤ p ∨ 2 ≤ v)) :
    airDose s d = none ∧ evaluate_rectal_air s total (d : ℤ) = none := by
  have hnone : s.fractions[d]? = none := by
    rw [List.getElem?_eq_none]
    omega
  have hair : airDose s d = none := by
    rw [airDose, hnone]
    rfl
  refine ⟨hair, ?_⟩
  simp only [evaluate_rectal_air]
  rw [if_neg h5]
  rw [Int.toNat_natCast]
  simp only [hg, hm]
  rw [if_neg hlim]
  simp only [hair]

/-- Claim C10 witness: 5 planned fractions, 5 fraction records, effective
delivered count 5 with all-zero doses: the gate passes, the current metrics
are (0, 0), no limit is reached, and the air-fraction lookup at index 5 is
out of range, so the evaluation produces no result. -/
theorem air_fraction_out_of_range_witness :
    airDose ⟨5, List.replicate 5 ⟨true, [0]⟩, [0], [1], 1, 1⟩ 5 = none ∧
    evaluate_rectal_air ⟨5, List.replicate 5 ⟨true, [0]⟩, [0], [1], 1, 1⟩ 5 ((5 : ℕ) : ℤ) = none :=
  air_fraction_out_of_range ⟨5, List.replicate 5 ⟨true, [0]⟩, [0], [1], 1, 1⟩ 5 5 0 0
    (List.replicate 5 [0])
    (by decide) (by decide) (by decide)
    (by norm_num [deliveredGrids, traverseOpt, List.range, List.range.loop, List.replicate])
    (by norm_num [accumulateSum, zeroGrid, addGrid, divGrid, smulGrid, computeMetrics,
      traverseOpt, maskSelect, List.zip, List.zipWith, List.replicate])
    (by norm_num)

/-- Claim C7 counterexample: two fraction grids of different shapes —
(1,1,2) and (1,1,1) — fed to the accumulation loop of lines 97-102 do not
raise: numpy broadcasts the size-1 axis and the loop returns a summed grid,
so `accumulate` does not fail whenever shapes differ. -/
theorem accumulate_broadcast_cex :
    shape3 [[[(1 : ℚ), 1]]] ≠ shape3 [[[(5 : ℚ)]]] ∧
    accumulateNp 1 1 2 [[[[(1 : ℚ), 1]]], [[[(5 : ℚ)]]]] = some [[[6, 6]]] := by
  constructor
  · decide
  · norm_num [accumulateNp, accumulateNpGo, npIAdd, broadcastPlane, broadcastRow,
      zeros3, traverseOpt, List.zip, List.zipWith, List.replicate]

/-- A failing head aborts the whole fallible loop. -/
theorem traverseOpt_cons_none (f : α → Option β) (x : α) (xs : List α)
    (h : f x = none) : traverseOpt f (x :: xs) = none := by
  cases htail : traverseOpt f xs <;> simp [traverseOpt, h, htail]

/-- Innermost axis: adding a row whose length neither matches the target row
nor is 1 raises. -/
theorem broadcastRow_none (ra rb : List ℚ) (hne : rb.length ≠ ra.length)
    (h1 : rb.length ≠ 1) : broadcastRow ra rb = none := by
  rw [broadcastRow, if_neg hne, if_neg h1]

/-- Plane level: a plane whose extents do not broadcast into a non-empty
target plane raises. -/
theorem broadcastPlane_none (ya xa yb xb : ℕ) (pa pb : List (List ℚ))
    (hpa : IsGrid2 ya xa pa) (hpb : IsGrid2 yb xb pb) (hya : 1 ≤ ya)
    (hbad : ¬ ((yb = ya ∨ yb = 1) ∧ (xb = xa ∨ xb = 1))) :
    broadcastPlane pa pb = none := by
  obtain ⟨hpal, hpar⟩ := hpa
  obtain ⟨hpbl, hpbr⟩ := hpb
  by_cases hy : yb = ya ∨ yb = 1
  · have hx : xb ≠ xa ∧ xb ≠ 1 := by
      have h2 : ¬ (xb = xa ∨ xb = 1) := fun h2 => hbad ⟨hy, h2⟩
      push_neg at h2
      exact h2
    cases pa with
    | nil => simp at hpal; omega
    | cons ra pas =>
      cases pb with
      | nil => simp at hpbl; rcases hy with hy | hy <;> omega
      | cons rb pbs =>
        have hra : ra.length = xa := hpar ra (by simp)
        have hrb : rb.length = xb := hpbr rb (by simp)
        have hrow : broadcastRow ra rb = none :=
          broadcastRow_none ra rb (by omega) (by omega)
        rw [broadcastPlane]
        by_cases heq : (rb :: pbs).length = (ra :: pas).length
        · rw [if_pos heq, List.zip_cons_cons]
          exact traverseOpt_cons_none _ _ _ hrow
        · rw [if_neg heq]
          have h1 : (rb :: pbs).length = 1 := by
            rcases hy with hy | hy
            · exact absurd (show (rb :: pbs).length = (ra :: pas).length by omega) heq
            · omega
          rw [if_pos h1]
          exact traverseOpt_cons_none _ _ _ (by simpa using hrow)
  · push_neg at hy
    rw [broadcastPlane, if_neg (by omega), if_neg (by omega)]

/-- The in-place addition of lines 100-102 raises whenever the added grid is
not broadcastable into a non-degenerate accumulator: some axis extent
differs from the accumulator's and is not 1. -/
theorem npIAdd_not_broadcastable (za ya xa zb yb xb : ℕ) (a b : Grid3)
    (ha : IsGrid3 za ya xa a) (hb : IsGrid3 zb yb xb b)
    (hza : 1 ≤ za) (hya : 1 ≤ ya)
    (hbad : ¬ ((zb = za ∨ zb = 1) ∧ (yb = ya ∨ yb = 1) ∧ (xb = xa ∨ xb = 1))) :
    npIAdd a b = none := by
  obtain ⟨hal, har⟩ := ha
  obtain ⟨hbl, hbr⟩ := hb
  by_cases hz : zb = za ∨ zb = 1
  · have hyx : ¬ ((yb = ya ∨ yb = 1) ∧ (xb = xa ∨ xb = 1)) :=
      fun h2 => hbad ⟨hz, h2⟩
    cases a with
    | nil => simp at hal; omega
    | cons pa pas =>
      cases b with
      | nil => simp at hbl; rcases hz with hz | hz <;> omega
      | cons pb pbs =>
        have hpa := har pa (by simp)
        have hpb := hbr pb (by simp)
        have hplane : broadcastPlane pa pb = none :=
          broadcastPlane_none ya xa yb xb pa pb hpa hpb hya hyx
        rw [npIAdd]
        by_cases heq : (pb :: pbs).length = (pa :: pas).length
        · rw [if_pos heq, List.zip_cons_cons]
          exact traverseOpt_cons_none _ _ _ hplane
        · rw [if_neg heq]
          have h1 : (pb :: pbs).length = 1 := by
            rcases hz with hz | hz
            · exact absurd (show (pb :: pbs).length = (pa :: pas).length by omega) heq
            · omega
          rw [if_pos h1]
          exact traverseOpt_cons_none _ _ _ (by simpa using hplane)
  · push_neg at hz
    rw [npIAdd, if_neg (by omega), if_neg (by omega)]

/-- Claim C7 amended: the accumulation loop raises whenever an added grid is
not broadcastable into the (non-degenerate) accumulator: some axis extent
neither equals the accumulator's nor is 1 — on any axis, outer, middle or
inner; differing but broadcast-compatible shapes (a size-1 axis) are
silently broadcast instead.  And `compute_metrics` fails, with no partial
result, whenever the ROI index and weight lists have different lengths. -/
theorem dimension_mismatch_fails :
    (∀ (za ya xa zb yb xb : ℕ) (a b : Grid3),
      IsGrid3 za ya xa a → IsGrid3 zb yb xb b → 1 ≤ za → 1 ≤ ya →
      ¬ ((zb = za ∨ zb = 1) ∧ (yb = ya ∨ yb = 1) ∧ (xb = xa ∨ xb = 1)) →
      npIAdd a b = none) ∧
    (∀ (grid : Grid) (idx : List ℕ) (w : List ℚ) (vox t6000 t6200 : ℚ),
      idx.length ≠ w.length →
      computeMetrics grid idx w vox t6000 t6200 = none) := by
  constructor
  · intro za ya xa zb yb xb a b ha hb hza hya hbad
    exact npIAdd_not_broadcastable za ya xa zb yb xb a b ha hb hza hya hbad
  · intro grid idx w vox t6000 t6200 hne
    rw [computeMetrics]
    cases htr : traverseOpt (fun i => grid[i]?) idx with
    | none => rfl
    | some ds =>
      have hlen := traverseOpt_length _ _ _ htr
      have hmask : maskSelect w (ds.map (fun d => decide (t6000 ≤ d))) = none := by
        rw [maskSelect, if_neg]
        simp only [List.length_map]
        omega
      simp only [hmask]

/-- Claim C7 witness: a (1,1,3) grid added to a (1,1,2) accumulator — an
innermost-axis mismatch with matching outer axes — raises, and an ROI with
one index but no weights yields no metrics. -/
theorem dimension_mismatch_fails_witness :
    npIAdd [[[(0 : ℚ), 0]]] [[[(1 : ℚ), 1, 1]]] = none ∧
    computeMetrics [(7000 : ℚ)] [0] [] 1 6000 6200 = none :=
  ⟨dimension_mismatch_fails.1 1 1 2 1 1 3 [[[(0 : ℚ), 0]]] [[[(1 : ℚ), 1, 1]]]
      (by decide) (by decide) (by decide) (by decide) (by decide),
   dimension_mismatch_fails.2 [(7000 : ℚ)] [0] [] 1 6000 6200 (by decide)⟩

end RectalAir
